import Mathlib

/-!
# Verification of the visa-slot tracker core (`src/script.py`)

Shallow embedding of the slot evaluation and deduplication engine of the
visa-slot tracker script, together with proofs of the specified properties.

Modelling conventions:

* Instants are integers counting seconds on the configured timezone's local
  timeline.  The configured timezone (`Asia/Kolkata`) has a fixed offset and
  no DST, so `TIMEZONE.localize` is a constant shift shared by every instant;
  it cancels in every subtraction the code performs, hence we work directly
  with local wall-clock seconds.
* Python `//` on integers is floor division; Lean's `/` on `Int` is Euclidean
  division, which coincides with floor division whenever the divisor is
  positive (all divisors in this code are the literals 60, 24, 1440, 86400).
  Likewise Python `%` and Lean's `Int` `%` agree for positive moduli.
* Python `set` objects are modelled as `Finset String`.
* Exceptions are modelled with `Option`: a function that can raise returns
  `none` where the Python code would raise, and callers that catch the
  exception pattern-match on the result.
-/

namespace VizTele

/-! ## Timestamp parsing (`datetime.strptime(createdon, "%Y-%m-%d %H:%M:%S")`
followed by `Config.TIMEZONE.localize`)

We model the canonical fixed-width form of the format: four year digits,
two digits for each remaining field, with the literal separators of the
format string.  Field validation mirrors `datetime`'s constructor: year
in 1..9999, month in 1..12, day within the month's length (Gregorian,
with leap years), hour ≤ 23, minute ≤ 59, second ≤ 59. -/

/-- Gregorian leap-year test, as used by `datetime` via the proleptic
Gregorian calendar. -/
def isLeap (y : Nat) : Bool :=
  (y % 4 == 0 && y % 100 != 0) || y % 400 == 0

/-- Number of days in month `m` of year `y` (month numbered 1..12). -/
def daysInMonth (y m : Nat) : Nat :=
  if m = 2 then (if isLeap y then 29 else 28)
  else if m = 4 ∨ m = 6 ∨ m = 9 ∨ m = 11 then 30
  else 31

/-- Days in the months strictly before month `m` of year `y`. -/
def daysBeforeMonth (y m : Nat) : Nat :=
  (List.range m).foldl (fun acc i => if 1 ≤ i then acc + daysInMonth y i else acc) 0

/-- Day count of `y-m-d` measured from 0001-01-01 (proleptic Gregorian). -/
def daysFromCivil (y m d : Nat) : Nat :=
  365 * (y - 1) + (y - 1) / 4 - (y - 1) / 100 + (y - 1) / 400
    + daysBeforeMonth y m + (d - 1)

/-- Seconds on the local timeline for the wall-clock datetime
`y-m-d h:mi:s` (measured from 0001-01-01 00:00:00 local). -/
def toLocalSeconds (y m d h mi s : Nat) : Int :=
  ((daysFromCivil y m d) * 86400 + h * 3600 + mi * 60 + s : Nat)

/-- Numeric value of a decimal digit character, `none` otherwise. -/
def digitVal (c : Char) : Option Nat :=
  if c.isDigit then some (c.toNat - 48) else none

/-- Two-digit decimal field. -/
def field2 (a b : Char) : Option Nat := do
  let x ← digitVal a
  let y ← digitVal b
  pure (10 * x + y)

/-- Four-digit decimal field. -/
def field4 (a b c d : Char) : Option Nat := do
  let x ← field2 a b
  let y ← field2 c d
  pure (100 * x + y)

/-- Model of `datetime.strptime(str, "%Y-%m-%d %H:%M:%S")` localized to the
configured timezone, as local-timeline seconds; `none` models the
`ValueError` raised on a malformed string or out-of-range fields. -/
def parseTimestamp (str : String) : Option Int :=
  match str.toList with
  | [y1, y2, y3, y4, '-', m1, m2, '-', d1, d2, ' ',
     h1, h2, ':', n1, n2, ':', s1, s2] => do
      let y ← field4 y1 y2 y3 y4
      let mo ← field2 m1 m2
      let d ← field2 d1 d2
      let h ← field2 h1 h2
      let mi ← field2 n1 n2
      let s ← field2 s1 s2
      if 1 ≤ y ∧ 1 ≤ mo ∧ mo ≤ 12 ∧ 1 ≤ d ∧ d ≤ daysInMonth y mo
          ∧ h ≤ 23 ∧ mi ≤ 59 ∧ s ≤ 59 then
        pure (toLocalSeconds y mo d h mi s)
      else
        none
  | _ => none

/-! ## Data model (`VisaSlot` dataclass) -/

/-- The raw feed record: the keyword arguments passed to `VisaSlot(**slot)`. -/
structure RawSlot where
  visa_location : String
  earliest_date : String
  no_of_apnts : Nat
  createdon : String
  deriving DecidableEq, Repr

/-- The fixed `+5:30` adjustment applied in `VisaSlot.__post_init__`
(`timedelta(hours=5, minutes=30)`), in seconds. -/
def OFFSET_SECONDS : Int := 5 * 3600 + 30 * 60

/-- A constructed `VisaSlot`: the raw fields plus the `adjusted_time`
computed once in `__post_init__`.  (`__post_init__` always assigns
`adjusted_time` or raises, so the `None` default is unreachable in a
successfully constructed slot.) -/
structure VisaSlot where
  visa_location : String
  earliest_date : String
  no_of_apnts : Nat
  createdon : String
  adjusted_time : Int
  deriving DecidableEq, Repr

/-- Model of `VisaSlot(**slot)` including `__post_init__`: parse `createdon`,
localize, add the fixed `+5:30`; `none` models the `ValueError`
propagating out of the constructor. -/
def mkVisaSlot (raw : RawSlot) : Option VisaSlot := do
  let created_time ← parseTimestamp raw.createdon
  pure { visa_location := raw.visa_location
         earliest_date := raw.earliest_date
         no_of_apnts := raw.no_of_apnts
         createdon := raw.createdon
         adjusted_time := created_time + OFFSET_SECONDS }

/-- Model of `VisaSlot.minutes_since_creation`: `int(delta.total_seconds() // 60)`,
where `delta = reference_time - self.adjusted_time`. -/
def minutes_since_creation (slot : VisaSlot) (reference_time : Int) : Int :=
  (reference_time - slot.adjusted_time) / 60

/-- Pluralization used in the f-strings: `'s' if n != 1 else ''`. -/
def pluralS (n : Int) : String := if n ≠ 1 then "s" else ""

/-- Body of `VisaSlot.get_relative_time` as a function of
`delta = reference_time - self.adjusted_time` (in seconds): the method
computes everything from this one difference. -/
def relativeTimeOfDelta (delta : Int) : String :=
  let total_seconds := delta
  let minutes := total_seconds / 60
  let hours := minutes / 60
  let days := delta / 86400
  if minutes < 1 then "just now"
  else if minutes < 60 then
    toString minutes ++ " minute" ++ pluralS minutes ++ " ago"
  else if hours < 24 then
    let rem_minutes := minutes % 60
    toString hours ++ " hour" ++ pluralS hours ++
      (if rem_minutes ≠ 0 then
        " " ++ toString rem_minutes ++ " minute" ++ pluralS rem_minutes ++ " ago"
      else " ago")
  else
    toString days ++ " day" ++ pluralS days ++ " ago"

/-- Model of `VisaSlot.get_relative_time`. -/
def get_relative_time (slot : VisaSlot) (reference_time : Int) : String :=
  relativeTimeOfDelta (reference_time - slot.adjusted_time)

/-! ## Notification payloads -/

/-- One Telegram message sent by `process_slots`: either the fixed
three-line batch-separator banner, or one slot's
`to_notification_text` (whose lines carry, in order, the location, the
earliest date, the appointment count and the relative-age string).  The
constructor arguments record exactly the data interpolated into the
fixed template. -/
inductive Message where
  | separator : Message
  | slotNotification (location earliest_date : String) (count : Nat)
      (relative_time : String) : Message
  deriving DecidableEq, Repr

/-- Model of `VisaSlot.to_notification_text`. -/
def to_notification_text (slot : VisaSlot) (reference_time : Int) : Message :=
  Message.slotNotification slot.visa_location slot.earliest_date
    slot.no_of_apnts (get_relative_time slot reference_time)

/-! ## Configuration (`Config`)

The script reads these once from the environment at startup (defaults:
threshold 3, targets `{"CHENNAI", "CHENNAI VAC"}`); we pass them as an
explicit value so theorems quantify over every configuration. -/

/-- The configuration fields the core logic reads. -/
structure Config where
  recency_threshold_minutes : Int
  targeted_locations : Finset String
  deriving DecidableEq

/-- The default configuration values of `Config` in the script. -/
def defaultConfig : Config :=
  { recency_threshold_minutes := 3
    targeted_locations := {"CHENNAI", "CHENNAI VAC"} }

/-! ## Fetch (`VisaSlotTracker.fetch_visa_slots`) -/

/-- The observable outcome of
`RetrySession.get(Config.API_URL, ...)` plus JSON decoding, i.e. what
`fetch_visa_slots` inspects about its one network call:
* `none` — the request raised (network error after retries); caught by
  the outer `except Exception`.
* `some r` — a response with `r.status` as `status_code`;
  `r.body = none` models a body that is not valid JSON
  (`json.JSONDecodeError` from `response.json()`), and `r.body = some l`
  models a decoded payload whose `result`/`F-1 (Regular)` extraction
  (`data.get('result', {}).get('F-1 (Regular)', [])`) yields the record
  list `l` (a missing key yields `[]`). -/
structure HttpResponse where
  status : Nat
  body : Option (List RawSlot)
  deriving DecidableEq, Repr

/-- Model of `[VisaSlot(**slot) for slot in f1_slots_raw]`: the whole list
comprehension runs inside `fetch_visa_slots`'s single `try` block, so
the first constructor `ValueError` aborts the comprehension and yields
no list at all (`none`). -/
def constructSlots (raws : List RawSlot) : Option (List VisaSlot) :=
  match raws with
  | [] => some []
  | r :: rest => do
    let s ← mkVisaSlot r
    let tail ← constructSlots rest
    pure (s :: tail)

/-- Model of `VisaSlotTracker.fetch_visa_slots`, as a function of the network
outcome `resp`.  Every failure path (`status_code != 200`, JSON decode
failure, empty record list, or any `VisaSlot` constructor raising) ends
in `return []` — the `except` clauses catch everything. -/
def fetch_visa_slots (resp : Option HttpResponse) : List VisaSlot :=
  match resp with
  | none => []
  | some r =>
    if r.status ≠ 200 then []
    else match r.body with
      | none => []
      | some f1_slots_raw =>
        if f1_slots_raw = [] then []
        else match constructSlots f1_slots_raw with
          | some slots => slots
          | none => []

/-! ## Filters -/

/-- Model of `VisaSlotTracker.filter_recent_slots`: the loop appends `slot` to
`recent_slots` exactly when
`slot.minutes_since_creation(reference_time) <= Config.RECENCY_THRESHOLD_MINUTES`. -/
def filter_recent_slots (cfg : Config) (slots : List VisaSlot)
    (reference_time : Int) : List VisaSlot :=
  match slots with
  | [] => []
  | slot :: rest =>
    if minutes_since_creation slot reference_time ≤ cfg.recency_threshold_minutes then
      slot :: filter_recent_slots cfg rest reference_time
    else
      filter_recent_slots cfg rest reference_time

/-- Model of `VisaSlotTracker.filter_targeted_locations`:
`[slot for slot in slots if slot.visa_location in Config.TARGETED_LOCATIONS]`. -/
def filter_targeted_locations (cfg : Config) (slots : List VisaSlot) :
    List VisaSlot :=
  slots.filter (fun slot => slot.visa_location ∈ cfg.targeted_locations)

/-! ## Deduplication (`process_slots`, lines 314–324) -/

/-- The identity string
`f"{slot.visa_location}:{slot.earliest_date}:{slot.createdon}"`. -/
def slotId (slot : VisaSlot) : String :=
  slot.visa_location ++ ":" ++ slot.earliest_date ++ ":" ++ slot.createdon

/-- Model of `current_slot_ids`: the set comprehension over `targeted_slots`. -/
def currentSlotIds (targeted_slots : List VisaSlot) : Finset String :=
  (targeted_slots.map slotId).toFinset

/-- Model of `new_slot_ids = current_slot_ids - self.processed_slots`. -/
def newSlotIds (targeted_slots : List VisaSlot)
    (processed_slots : Finset String) : Finset String :=
  currentSlotIds targeted_slots \ processed_slots

/-- One Dedup Tracker step: the "new" identity set together with the
updated `processed_slots` after `self.processed_slots.update(new_slot_ids)`. -/
def dedupStep (targeted_slots : List VisaSlot)
    (processed_slots : Finset String) : Finset String × Finset String :=
  let nw := newSlotIds targeted_slots processed_slots
  (nw, processed_slots ∪ nw)

/-! ## The evaluation pipeline (`VisaSlotTracker.process_slots`)

The method's outputs are its Telegram sends (in order) and the mutated
`self.processed_slots`; we return both. -/

/-- The targeted recent subset a cycle works on: fetch, then recency
filter, then location filter. -/
def targetedOf (cfg : Config) (resp : Option HttpResponse)
    (reference_time : Int) : List VisaSlot :=
  filter_targeted_locations cfg
    (filter_recent_slots cfg (fetch_visa_slots resp) reference_time)

/-- Model of `VisaSlotTracker.process_slots`: returns the ordered list of messages
passed to `TelegramNotifier.send_message` and the final
`self.processed_slots`. -/
def process_slots (cfg : Config) (resp : Option HttpResponse)
    (reference_time : Int) (processed_slots : Finset String) :
    List Message × Finset String :=
  let all_slots := fetch_visa_slots resp
  let recent_slots := filter_recent_slots cfg all_slots reference_time
  if recent_slots = [] then ([], processed_slots)
  else
    let targeted_slots := filter_targeted_locations cfg recent_slots
    if targeted_slots ≠ [] then
      let new_slot_ids := newSlotIds targeted_slots processed_slots
      if new_slot_ids ≠ ∅ then
        let updated := processed_slots ∪ new_slot_ids
        let individual :=
          (targeted_slots.filter (fun slot => slotId slot ∈ new_slot_ids)).map
            (fun slot => to_notification_text slot reference_time)
        (Message.separator :: individual, updated)
      else ([], processed_slots)
    else ([], processed_slots)

/-- A run of successive cycles of the Dedup Tracker: the per-cycle "new"
sets, and the final state. -/
def runCycles (cycles : List (List VisaSlot)) (st : Finset String) :
    List (Finset String) × Finset String :=
  match cycles with
  | [] => ([], st)
  | c :: cs =>
    let step := dedupStep c st
    let rest := runCycles cs step.2
    (step.1 :: rest.1, rest.2)

/-! ## The specified relative-age text

A second definition, written from the specification's words rather than
from the code, for the refinement claim about `get_relative_time`:
`"just now"` if `age_minutes < 1`; `"<n> minute(s) ago"` if
`age_minutes < 60`; `"<h> hour(s)[ <m> minute(s)] ago"` if
`age_minutes < 1440`; otherwise `"<d> day(s) ago"`; append `s` unless
the quantity equals exactly 1. -/

/-- The spec's pluralization rule: append `s` unless the quantity equals
exactly 1. -/
def specPlural (n : Int) : String := if n = 1 then "" else "s"

/-- The relative-age text as the specification states it, as a function
of `age_minutes`. -/
def relative_age_text_spec (age : Int) : String :=
  if age < 1 then "just now"
  else if age < 60 then
    toString age ++ " minute" ++ specPlural age ++ " ago"
  else if age < 1440 then
    let h := age / 60
    let m := age % 60
    toString h ++ " hour" ++ specPlural h ++
      (if m = 0 then "" else " " ++ toString m ++ " minute" ++ specPlural m) ++
      " ago"
  else
    let d := age / 1440
    toString d ++ " day" ++ specPlural d ++ " ago"

/-! ## Concrete scenario data

A feed snapshot matching the spec's end-to-end scenario: two CHENNAI
slots created 1 and 2 minutes before the reference time, one MUMBAI
slot created 1 minute before it, and one record with an unparsable
timestamp. -/

/-- CHENNAI record created one minute before `refTime`. -/
def rawChennai1 : RawSlot :=
  { visa_location := "CHENNAI", earliest_date := "2025-03-10"
    no_of_apnts := 5, createdon := "2024-01-01 10:01:00" }

/-- CHENNAI record created two minutes before `refTime`. -/
def rawChennai2 : RawSlot :=
  { visa_location := "CHENNAI", earliest_date := "2025-04-22"
    no_of_apnts := 3, createdon := "2024-01-01 10:00:00" }

/-- MUMBAI record created one minute before `refTime`. -/
def rawMumbai : RawSlot :=
  { visa_location := "MUMBAI", earliest_date := "2025-03-11"
    no_of_apnts := 4, createdon := "2024-01-01 10:01:00" }

/-- A record whose `createdon` string `strptime` rejects. -/
def rawBad : RawSlot :=
  { visa_location := "CHENNAI", earliest_date := "2025-03-10"
    no_of_apnts := 1, createdon := "not-a-timestamp" }

/-- The scenario's reference instant (`datetime.now(Config.TIMEZONE)`):
wall clock 2024-01-01 10:02:00 shifted like every constructed slot. -/
def refTime : Int := toLocalSeconds 2024 1 1 10 2 0 + OFFSET_SECONDS

/-- The `VisaSlot` that `VisaSlot(**rawChennai1)` constructs. -/
def slotChennai1 : VisaSlot :=
  { visa_location := "CHENNAI", earliest_date := "2025-03-10"
    no_of_apnts := 5, createdon := "2024-01-01 10:01:00"
    adjusted_time := toLocalSeconds 2024 1 1 10 1 0 + OFFSET_SECONDS }

/-- Variant of `slotChennai1` with a different appointment count only. -/
def slotChennai1' : VisaSlot :=
  { slotChennai1 with no_of_apnts := 7 }

/-- A slot at a lowercase spelling of a targeted location. -/
def slotLowercase : VisaSlot :=
  { slotChennai1 with visa_location := "chennai" }

/-- Variant of `rawChennai1` with a different appointment count only: same
identity string. -/
def rawChennai1' : RawSlot :=
  { rawChennai1 with no_of_apnts := 7 }

/-- The end-to-end scenario's feed response: two CHENNAI slots and one
MUMBAI slot, all recent at `refTime`. -/
def respScenario : Option HttpResponse :=
  some { status := 200, body := some [rawChennai1, rawChennai2, rawMumbai] }

/-- A feed response carrying two records that differ only in their
appointment count. -/
def respDuplicate : Option HttpResponse :=
  some { status := 200, body := some [rawChennai1, rawChennai1'] }

/-- A slot pinned at instant 0 of the local timeline, for exercising the
relative-age boundaries with the reference instant as the age. -/
def slotEpoch : VisaSlot :=
  { visa_location := "CHENNAI", earliest_date := "2025-03-10"
    no_of_apnts := 1, createdon := "2024-01-01 10:01:00"
    adjusted_time := 0 }

/-! ## Helper lemmas -/

/-- The recursive `filter_recent_slots` loop is `List.filter` of the
inclusive age test. -/
lemma filter_recent_slots_eq_filter (cfg : Config) (slots : List VisaSlot)
    (reference_time : Int) :
    filter_recent_slots cfg slots reference_time =
      slots.filter
        (fun s => minutes_since_creation s reference_time ≤
          cfg.recency_threshold_minutes) := by
  induction slots with
  | nil => rfl
  | cons a t ih =>
    by_cases h : minutes_since_creation a reference_time ≤
        cfg.recency_threshold_minutes
    · simp [filter_recent_slots, h, ih]
    · simp [filter_recent_slots, h, ih]

/-- A slot whose identity is absent from the state makes the cycle's
`new_slot_ids` nonempty; `process_slots` then takes its emitting branch. -/
lemma process_slots_emit (cfg : Config) (resp : Option HttpResponse)
    (reference_time : Int) (st : Finset String)
    (h : ∃ s ∈ targetedOf cfg resp reference_time, slotId s ∉ st) :
    process_slots cfg resp reference_time st =
      (Message.separator ::
        ((targetedOf cfg resp reference_time).filter
          (fun s => slotId s ∈ newSlotIds (targetedOf cfg resp reference_time) st)).map
          (fun s => to_notification_text s reference_time),
       st ∪ newSlotIds (targetedOf cfg resp reference_time) st) := by
  obtain ⟨s, hsT, hsid⟩ := h
  have hT : targetedOf cfg resp reference_time =
      filter_targeted_locations cfg
        (filter_recent_slots cfg (fetch_visa_slots resp) reference_time) := rfl
  have hsR : s ∈ filter_recent_slots cfg (fetch_visa_slots resp) reference_time := by
    rw [hT] at hsT
    exact List.mem_of_mem_filter hsT
  have hR : filter_recent_slots cfg (fetch_visa_slots resp) reference_time ≠ [] :=
    List.ne_nil_of_mem hsR
  have hTne : targetedOf cfg resp reference_time ≠ [] := List.ne_nil_of_mem hsT
  have hcur : slotId s ∈ currentSlotIds (targetedOf cfg resp reference_time) := by
    simp only [currentSlotIds, List.mem_toFinset]
    exact List.mem_map_of_mem slotId hsT
  have hnew : slotId s ∈ newSlotIds (targetedOf cfg resp reference_time) st := by
    simp only [newSlotIds, Finset.mem_sdiff]
    exact ⟨hcur, hsid⟩
  have hne : newSlotIds (targetedOf cfg resp reference_time) st ≠ ∅ :=
    Finset.ne_empty_of_mem hnew
  simp only [process_slots]
  rw [← hT, if_neg hR, if_pos hTne, if_pos hne]

/-- Every message `process_slots` emits is the separator or the
notification text of a slot of the cycle's targeted recent subset. -/
lemma process_slots_msg_shape (cfg : Config) (resp : Option HttpResponse)
    (reference_time : Int) (st : Finset String) :
    ∀ m ∈ (process_slots cfg resp reference_time st).1,
      m = Message.separator ∨
        ∃ s ∈ targetedOf cfg resp reference_time,
          m = to_notification_text s reference_time := by
  intro m hm
  by_cases h : ∃ s ∈ targetedOf cfg resp reference_time, slotId s ∉ st
  · rw [process_slots_emit cfg resp reference_time st h] at hm
    rcases List.mem_cons.mp hm with h1 | h1
    · exact Or.inl h1
    · obtain ⟨s, hs, rfl⟩ := List.mem_map.mp h1
      exact Or.inr ⟨s, List.mem_of_mem_filter hs, rfl⟩
  · exfalso
    -- with no new identity the function returns no message at all
    have : (process_slots cfg resp reference_time st).1 = [] := by
      simp only [process_slots]
      split
      · rfl
      · split
        · split
          · rename_i hne
            exfalso
            obtain ⟨x, hx⟩ := Finset.nonempty_iff_ne_empty.mpr hne
            simp only [newSlotIds, Finset.mem_sdiff, currentSlotIds,
              List.mem_toFinset, List.mem_map] at hx
            obtain ⟨⟨s, hs, rfl⟩, hxs⟩ := hx
            exact h ⟨s, hs, hxs⟩
          · rfl
        · rfl
    simp [this] at hm

/-- Membership in `new_slot_ids`, unfolded. -/
lemma mem_newSlotIds {targeted : List VisaSlot} {st : Finset String}
    {x : String} :
    x ∈ newSlotIds targeted st ↔ x ∈ currentSlotIds targeted ∧ x ∉ st := by
  simp [newSlotIds]

/-- A dedup step never removes an identity from the state. -/
lemma subset_dedupStep_state (targeted : List VisaSlot) (st : Finset String) :
    st ⊆ (dedupStep targeted st).2 :=
  Finset.subset_union_left

/-- Every identity reported "new" is in the updated state. -/
lemma new_subset_dedupStep_state (targeted : List VisaSlot)
    (st : Finset String) :
    (dedupStep targeted st).1 ⊆ (dedupStep targeted st).2 :=
  Finset.subset_union_right

/-- An identity already in the state is never reported "new" in any later
cycle of a run. -/
lemma runCycles_countP_zero (cycles : List (List VisaSlot)) :
    ∀ (st : Finset String) (x : String), x ∈ st →
      ((runCycles cycles st).1.countP (fun nw => x ∈ nw)) = 0 := by
  induction cycles with
  | nil => intro st x _; rfl
  | cons c cs ih =>
    intro st x hx
    have h1 : x ∉ (dedupStep c st).1 := by
      simp [dedupStep, mem_newSlotIds, hx]
    have h2 : x ∈ (dedupStep c st).2 := Finset.mem_union_left _ hx
    simp only [runCycles, List.countP_cons]
    rw [ih _ _ h2]
    simp [h1]

/-! ## Claim theorems -/

/-- C2: running the Dedup Tracker twice in succession on the same
targeted-slot sequence yields an empty "new" set the second time (and
the first run can genuinely be nonempty); across any run of cycles,
each identity is reported "new" at most once for the lifetime of the
state. -/
theorem dedup_idempotent_and_at_most_once :
    (∀ (targeted : List VisaSlot) (st : Finset String),
      (dedupStep targeted (dedupStep targeted st).2).1 = ∅) ∧
    (∀ (cycles : List (List VisaSlot)) (st : Finset String) (x : String),
      ((runCycles cycles st).1.countP (fun nw => x ∈ nw)) ≤ 1) ∧
    (dedupStep [slotChennai1] ∅).1 ≠ ∅ := by
  refine ⟨?_, ?_, by decide⟩
  · intro targeted st
    simp only [dedupStep, newSlotIds]
    ext x
    simp only [Finset.mem_sdiff, Finset.mem_union, Finset.not_mem_empty,
      iff_false]
    tauto
  · intro cycles
    induction cycles with
    | nil => intro st x; simp [runCycles]
    | cons c cs ih =>
      intro st x
      simp only [runCycles, List.countP_cons]
      by_cases h : x ∈ (dedupStep c st).1
      · have h2 : x ∈ (dedupStep c st).2 :=
          new_subset_dedupStep_state c st h
        rw [runCycles_countP_zero cs _ x h2]
        simp [h]
      · have := ih (dedupStep c st).2 x
        simp only [h, decide_eq_true_eq, if_neg, decide_False]
        simpa using this

/-- C5: the recency filter returns exactly the order-preserving
subsequence of its input whose age is at most the configured threshold
(the bound is inclusive), and membership is characterized by that
inclusive comparison. -/
theorem recency_filter_exact (cfg : Config) (slots : List VisaSlot)
    (reference_time : Int) :
    filter_recent_slots cfg slots reference_time =
      slots.filter (fun s => minutes_since_creation s reference_time ≤
        cfg.recency_threshold_minutes) ∧
    List.Sublist (filter_recent_slots cfg slots reference_time) slots ∧
    (∀ s, s ∈ filter_recent_slots cfg slots reference_time ↔
      s ∈ slots ∧ minutes_since_creation s reference_time ≤
        cfg.recency_threshold_minutes) := by
  refine ⟨filter_recent_slots_eq_filter cfg slots reference_time, ?_, ?_⟩
  · rw [filter_recent_slots_eq_filter]
    exact List.filter_sublist slots
  · intro s
    rw [filter_recent_slots_eq_filter]
    simp [List.mem_filter]

/-- C6: the location filter returns exactly the order-preserving
subsequence whose location is a member of the target set, membership
being exact (and hence case-sensitive) string equality; every
notification the pipeline emits names a targeted location, and a
lowercase spelling of a target is filtered out. -/
theorem location_filter_exact (cfg : Config) (slots : List VisaSlot) :
    filter_targeted_locations cfg slots =
      slots.filter (fun s => s.visa_location ∈ cfg.targeted_locations) ∧
    List.Sublist (filter_targeted_locations cfg slots) slots ∧
    (∀ s, s ∈ filter_targeted_locations cfg slots ↔
      s ∈ slots ∧ s.visa_location ∈ cfg.targeted_locations) ∧
    (∀ (resp : Option HttpResponse) (reference_time : Int)
        (st : Finset String) (loc date : String) (cnt : Nat) (rt : String),
      Message.slotNotification loc date cnt rt ∈
          (process_slots cfg resp reference_time st).1 →
        loc ∈ cfg.targeted_locations) ∧
    ("chennai" ∉ defaultConfig.targeted_locations ∧
      filter_targeted_locations defaultConfig [slotLowercase] = []) := by
  refine ⟨rfl, List.filter_sublist slots, ?_, ?_, by decide⟩
  · intro s
    simp [filter_targeted_locations, List.mem_filter]
  · intro resp reference_time st loc date cnt rt hm
    rcases process_slots_msg_shape cfg resp reference_time st _ hm with h | h
    · cases h
    · obtain ⟨s, hsT, hs⟩ := h
      have hloc : loc = s.visa_location := by
        cases hs
        rfl
      have : s ∈ filter_targeted_locations cfg
          (filter_recent_slots cfg (fetch_visa_slots resp) reference_time) := hsT
      rw [filter_targeted_locations] at this
      have := List.mem_filter.mp this
      simpa [hloc] using this.2

/-- C9: slots that agree on location, earliest date and raw creation
timestamp have equal identity strings, whatever their appointment
counts, so the dedup set treats them as one identity. -/
theorem identity_ignores_appointment_count (s1 s2 : VisaSlot)
    (h1 : s1.visa_location = s2.visa_location)
    (h2 : s1.earliest_date = s2.earliest_date)
    (h3 : s1.createdon = s2.createdon) :
    slotId s1 = slotId s2 ∧ currentSlotIds [s1, s2] = {slotId s1} := by
  have hid : slotId s1 = slotId s2 := by
    simp [slotId, h1, h2, h3]
  refine ⟨hid, ?_⟩
  simp [currentSlotIds, ← hid]

/-- Closed instance of C9: two concrete slots differing only in
`no_of_apnts` share an identity and collapse to one dedup entry. -/
theorem identity_ignores_appointment_count_witness :
    slotId slotChennai1 = slotId slotChennai1' ∧
      currentSlotIds [slotChennai1, slotChennai1'] = {slotId slotChennai1} :=
  identity_ignores_appointment_count slotChennai1 slotChennai1' rfl rfl rfl

/-- A cycle that fetched no slots emits nothing and keeps the state. -/
lemma process_slots_of_fetch_nil (cfg : Config) (resp : Option HttpResponse)
    (reference_time : Int) (st : Finset String)
    (h : fetch_visa_slots resp = []) :
    process_slots cfg resp reference_time st = ([], st) := by
  simp [process_slots, h, filter_recent_slots]

/-- C4: on fetch failure — a request exception, a non-200 status, or an
unparsable JSON body — the cycle emits zero notifications and leaves
the dedup state exactly as it was.  (All these paths are `return []`
in `fetch_visa_slots`; totality of the model reflects that no exception
escapes the pipeline.) -/
theorem fetch_failure_noop (cfg : Config) (reference_time : Int)
    (st : Finset String) :
    process_slots cfg none reference_time st = ([], st) ∧
    (∀ r : HttpResponse, r.status ≠ 200 →
      process_slots cfg (some r) reference_time st = ([], st)) ∧
    (∀ status : Nat,
      process_slots cfg (some { status := status, body := none })
        reference_time st = ([], st)) := by
  refine ⟨?_, ?_, ?_⟩
  · exact process_slots_of_fetch_nil cfg none reference_time st rfl
  · intro r hr
    apply process_slots_of_fetch_nil
    simp [fetch_visa_slots, hr]
  · intro status
    apply process_slots_of_fetch_nil
    by_cases h : status = 200
    · simp [fetch_visa_slots, h]
    · simp [fetch_visa_slots, h]

/-- One failing `VisaSlot(**slot)` makes the whole list comprehension
(and with it the cycle's slot list) come out empty. -/
lemma constructSlots_eq_none {raws : List RawSlot} {r : RawSlot}
    (hr : r ∈ raws) (hbad : mkVisaSlot r = none) :
    constructSlots raws = none := by
  induction raws with
  | nil => cases hr
  | cons a t ih =>
    rcases List.mem_cons.mp hr with rfl | hmem
    · simp [constructSlots, hbad]
    · cases h : mkVisaSlot a
      · simp [constructSlots, h]
      · simp [constructSlots, h, ih hmem]

/-- C1 (amended): one slot record with an unparsable `createdon` in an
otherwise well-formed snapshot empties the whole fetch — every slot of
the snapshot is dropped — and the cycle then ends with zero
notifications and an unchanged dedup state (it does continue without
an exception). -/
theorem single_parse_failure_drops_snapshot (raws : List RawSlot)
    (r : RawSlot) (cfg : Config) (reference_time : Int) (st : Finset String)
    (hr : r ∈ raws) (hbad : mkVisaSlot r = none) :
    fetch_visa_slots (some { status := 200, body := some raws }) = [] ∧
    process_slots cfg (some { status := 200, body := some raws })
      reference_time st = ([], st) := by
  have hne : raws ≠ [] := List.ne_nil_of_mem hr
  have hfetch : fetch_visa_slots (some { status := 200, body := some raws }) = [] := by
    simp [fetch_visa_slots, hne, constructSlots_eq_none hr hbad]
  exact ⟨hfetch, process_slots_of_fetch_nil cfg _ reference_time st hfetch⟩

/-- Closed instance of the amended C1, at the concrete snapshot
`[rawChennai1, rawBad]`. -/
theorem single_parse_failure_drops_snapshot_witness :
    fetch_visa_slots (some { status := 200, body := some [rawChennai1, rawBad] }) = [] ∧
    process_slots defaultConfig
      (some { status := 200, body := some [rawChennai1, rawBad] })
      refTime ∅ = ([], ∅) :=
  single_parse_failure_drops_snapshot [rawChennai1, rawBad] rawBad
    defaultConfig refTime ∅ (by decide) (by decide)

/-- Counterexample to C1 as stated: in the snapshot
`[rawChennai1, rawBad]` only `rawBad` is unparsable, and `rawChennai1`
is well-formed, recent and targeted — yet the cycle notifies nothing
and records nothing, while the same cycle without the bad record
notifies the good slot.  The well-formed slot does not flow through. -/
theorem parse_failure_not_isolated_counterexample :
    mkVisaSlot rawBad = none ∧
    mkVisaSlot rawChennai1 = some slotChennai1 ∧
    minutes_since_creation slotChennai1 refTime ≤
      defaultConfig.recency_threshold_minutes ∧
    slotChennai1.visa_location ∈ defaultConfig.targeted_locations ∧
    process_slots defaultConfig
      (some { status := 200, body := some [rawChennai1, rawBad] })
      refTime ∅ = ([], ∅) ∧
    process_slots defaultConfig
      (some { status := 200, body := some [rawChennai1] })
      refTime ∅ ≠ ([], ∅) := by
  refine ⟨by decide, by decide, by decide, by decide, by decide, by decide⟩

/-- C3: the instant a constructed slot stores is the parsed
`createdon` plus exactly 5 hours 30 minutes, and both
`minutes_since_creation` (hence the recency filter) and
`get_relative_time` are functions of precisely that corrected instant
— no consumer sees the uncorrected parse result. -/
theorem corrected_instant_used_everywhere (raw : RawSlot) (s : VisaSlot)
    (reference_time : Int) (h : mkVisaSlot raw = some s) :
    ∃ t, parseTimestamp raw.createdon = some t ∧
      s.adjusted_time = t + OFFSET_SECONDS ∧
      minutes_since_creation s reference_time =
        (reference_time - (t + OFFSET_SECONDS)) / 60 ∧
      get_relative_time s reference_time =
        relativeTimeOfDelta (reference_time - (t + OFFSET_SECONDS)) := by
  cases hp : parseTimestamp raw.createdon with
  | none => simp [mkVisaSlot, hp] at h
  | some t =>
    have hs : s = { visa_location := raw.visa_location
                    earliest_date := raw.earliest_date
                    no_of_apnts := raw.no_of_apnts
                    createdon := raw.createdon
                    adjusted_time := t + OFFSET_SECONDS } := by
      simp [mkVisaSlot, hp] at h
      exact h.symm
    subst hs
    exact ⟨t, rfl, rfl, rfl, rfl⟩

/-- Closed instance of C3 at the concrete record `rawChennai1`. -/
theorem corrected_instant_used_everywhere_witness :
    ∃ t, parseTimestamp rawChennai1.createdon = some t ∧
      slotChennai1.adjusted_time = t + OFFSET_SECONDS ∧
      minutes_since_creation slotChennai1 refTime =
        (refTime - (t + OFFSET_SECONDS)) / 60 ∧
      get_relative_time slotChennai1 refTime =
        relativeTimeOfDelta (refTime - (t + OFFSET_SECONDS)) :=
  corrected_instant_used_everywhere rawChennai1 slotChennai1 refTime (by decide)

/-- C7: whenever the cycle's targeted recent subset holds at least one
identity not yet in the dedup state, the messages are exactly one
batch separator followed by one notification per new targeted slot, in
input order; the separator occurs once and only at the head. -/
theorem batch_separator_then_individuals (cfg : Config)
    (resp : Option HttpResponse) (reference_time : Int) (st : Finset String)
    (h : ∃ s ∈ targetedOf cfg resp reference_time, slotId s ∉ st) :
    (process_slots cfg resp reference_time st).1 =
      Message.separator ::
        ((targetedOf cfg resp reference_time).filter
          (fun s => slotId s ∈
            newSlotIds (targetedOf cfg resp reference_time) st)).map
          (fun s => to_notification_text s reference_time) ∧
    ((process_slots cfg resp reference_time st).1.countP
      (fun m => m = Message.separator)) = 1 ∧
    (∀ m ∈ ((process_slots cfg resp reference_time st).1).tail,
      m ≠ Message.separator) := by
  have he := process_slots_emit cfg resp reference_time st h
  have h1 : (process_slots cfg resp reference_time st).1 =
      Message.separator ::
        ((targetedOf cfg resp reference_time).filter
          (fun s => slotId s ∈
            newSlotIds (targetedOf cfg resp reference_time) st)).map
          (fun s => to_notification_text s reference_time) := by
    rw [he]
  refine ⟨h1, ?_, ?_⟩
  · rw [h1]
    simp [List.countP_cons, List.countP_map, Function.comp,
      to_notification_text, List.countP_eq_zero]
  · rw [h1]
    intro m hm
    simp only [List.tail_cons] at hm
    obtain ⟨s, _, rfl⟩ := List.mem_map.mp hm
    simp [to_notification_text]

/-- Closed instance of C7 at the scenario feed: two new CHENNAI slots
and one recent MUMBAI slot yield exactly one separator followed by
exactly the two CHENNAI notifications — the MUMBAI slot is never
notified. -/
theorem batch_separator_then_individuals_witness :
    ((process_slots defaultConfig respScenario refTime ∅).1 =
      Message.separator ::
        ((targetedOf defaultConfig respScenario refTime).filter
          (fun s => slotId s ∈
            newSlotIds (targetedOf defaultConfig respScenario refTime) ∅)).map
          (fun s => to_notification_text s refTime) ∧
     ((process_slots defaultConfig respScenario refTime ∅).1.countP
       (fun m => m = Message.separator)) = 1 ∧
     (∀ m ∈ ((process_slots defaultConfig respScenario refTime ∅).1).tail,
       m ≠ Message.separator)) ∧
    (process_slots defaultConfig respScenario refTime ∅).1 =
      [Message.separator,
       Message.slotNotification "CHENNAI" "2025-03-10" 5 "1 minute ago",
       Message.slotNotification "CHENNAI" "2025-04-22" 3 "2 minutes ago"] :=
  ⟨batch_separator_then_individuals defaultConfig respScenario refTime ∅
    (by decide), by decide⟩

/-- C10: two distinct targeted recent records sharing one not-yet-seen
identity are each notified (two payloads for one identity in the
cycle), while the state receives that identity as a single set
element. -/
theorem duplicate_identity_notified_per_record (cfg : Config)
    (resp : Option HttpResponse) (reference_time : Int) (st : Finset String)
    (r1 r2 : VisaSlot)
    (h1 : r1 ∈ targetedOf cfg resp reference_time)
    (h2 : r2 ∈ targetedOf cfg resp reference_time)
    (hid : slotId r1 = slotId r2)
    (hst : slotId r1 ∉ st)
    (hcnt : r1.no_of_apnts ≠ r2.no_of_apnts) :
    to_notification_text r1 reference_time ∈
      (process_slots cfg resp reference_time st).1 ∧
    to_notification_text r2 reference_time ∈
      (process_slots cfg resp reference_time st).1 ∧
    to_notification_text r1 reference_time ≠
      to_notification_text r2 reference_time ∧
    (process_slots cfg resp reference_time st).2 =
      st ∪ newSlotIds (targetedOf cfg resp reference_time) st ∧
    slotId r1 ∈ (process_slots cfg resp reference_time st).2 := by
  have he := process_slots_emit cfg resp reference_time st ⟨r1, h1, hst⟩
  have new1 : slotId r1 ∈ newSlotIds (targetedOf cfg resp reference_time) st := by
    refine mem_newSlotIds.mpr ⟨?_, hst⟩
    simp only [currentSlotIds, List.mem_toFinset]
    exact List.mem_map_of_mem slotId h1
  have new2 : slotId r2 ∈ newSlotIds (targetedOf cfg resp reference_time) st :=
    hid ▸ new1
  refine ⟨?_, ?_, ?_, ?_, ?_⟩
  · rw [he]
    exact List.mem_cons_of_mem _
      (List.mem_map_of_mem _ (List.mem_filter.mpr ⟨h1, by simp [new1]⟩))
  · rw [he]
    exact List.mem_cons_of_mem _
      (List.mem_map_of_mem _ (List.mem_filter.mpr ⟨h2, by simp [new2]⟩))
  · simp only [to_notification_text, ne_eq, Message.slotNotification.injEq,
      not_and]
    intro _ _ hc
    exact absurd hc hcnt
  · rw [he]
  · rw [he]
    exact Finset.mem_union_right st new1

/-- Closed instance of C10: the feed carries two records identical but
for their appointment counts (5 and 7); both are notified and the one
shared identity enters the state. -/
theorem duplicate_identity_notified_per_record_witness :
    to_notification_text slotChennai1 refTime ∈
      (process_slots defaultConfig respDuplicate refTime ∅).1 ∧
    to_notification_text slotChennai1' refTime ∈
      (process_slots defaultConfig respDuplicate refTime ∅).1 ∧
    to_notification_text slotChennai1 refTime ≠
      to_notification_text slotChennai1' refTime ∧
    (process_slots defaultConfig respDuplicate refTime ∅).2 =
      ∅ ∪ newSlotIds (targetedOf defaultConfig respDuplicate refTime) ∅ ∧
    slotId slotChennai1 ∈
      (process_slots defaultConfig respDuplicate refTime ∅).2 :=
  duplicate_identity_notified_per_record defaultConfig respDuplicate refTime ∅
    slotChennai1 slotChennai1' (by decide) (by decide) (by decide) (by decide)
    (by decide)

/-- The code's pluralization (`'s' if n != 1 else ''`) and the spec's
("append `s` unless the quantity equals exactly 1") agree. -/
lemma pluralS_eq_specPlural (n : Int) : pluralS n = specPlural n := by
  unfold pluralS specPlural
  by_cases h : n = 1 <;> simp [h]

/-- The code's `hours < 24` test is the spec's `age_minutes < 1440`. -/
lemma hour_cond (delta : Int) : delta / 60 / 60 < 24 ↔ delta / 60 < 1440 := by
  omega

/-- The code's `delta.days` value is the spec's `age_minutes / 1440`. -/
lemma day_eq (delta : Int) : delta / 60 / 1440 = delta / 86400 := by
  omega

/-- The relative-time string the code computes from a delta equals the
specification's piecewise text at the corresponding `age_minutes`. -/
lemma relativeTimeOfDelta_eq_spec (delta : Int) :
    relativeTimeOfDelta delta = relative_age_text_spec (delta / 60) := by
  unfold relativeTimeOfDelta relative_age_text_spec
  by_cases h1 : delta / 60 < 1
  · simp [h1]
  · by_cases h2 : delta / 60 < 60
    · simp [h1, h2, pluralS_eq_specPlural]
    · by_cases h3 : delta / 60 / 60 < 24
      · have h3' : delta / 60 < 1440 := (hour_cond delta).mp h3
        simp only [if_neg h1, if_neg h2, if_pos h3, if_pos h3']
        by_cases h4 : delta / 60 % 60 = 0
        · simp [h4, pluralS_eq_specPlural]
        · simp [h4, pluralS_eq_specPlural, String.append_assoc]
      · have h3' : ¬ delta / 60 < 1440 := fun hc => h3 ((hour_cond delta).mpr hc)
        simp [if_neg h1, if_neg h2, if_neg h3, if_neg h3',
          pluralS_eq_specPlural, day_eq]

/-- C8: for every slot and reference instant the relative-age text is
exactly the spec's piecewise definition of `age_minutes` (negative ages
included, which land in "just now"), checked also at every stated
boundary: ages 0, 1, 59, 60, 90, 1440 and a negative age. -/
theorem relative_time_matches_spec :
    (∀ (slot : VisaSlot) (reference_time : Int),
      get_relative_time slot reference_time =
        relative_age_text_spec (minutes_since_creation slot reference_time)) ∧
    get_relative_time slotEpoch 0 = "just now" ∧
    get_relative_time slotEpoch 60 = "1 minute ago" ∧
    get_relative_time slotEpoch (59 * 60) = "59 minutes ago" ∧
    get_relative_time slotEpoch (60 * 60) = "1 hour ago" ∧
    get_relative_time slotEpoch (90 * 60) = "1 hour 30 minutes ago" ∧
    get_relative_time slotEpoch (1440 * 60) = "1 day ago" ∧
    get_relative_time slotEpoch (-120) = "just now" := by
  refine ⟨?_, by decide, by decide, by decide, by decide, by decide,
    by decide, by decide⟩
  intro slot reference_time
  exact relativeTimeOfDelta_eq_spec (reference_time - slot.adjusted_time)

end VizTele
